import Mathlib

/-
Verification of the zoom-event-platform backend: a shallow embedding of the
subscription tier-limit policy and the event/meeting synchronization logic
of the events router, together with theorems about them.

Conventions of the embedding:
  - timestamps are integers in milliseconds (the JavaScript Date difference);
  - JavaScript truthiness of an optional number field is modelled by jsOr
    (0, null and undefined are falsy), and of an optional string field by
    isTruthy (the empty string is falsy);
  - calls to the persistent store and to the remote meeting provider are
    recorded in explicit traces; the outcome of a remote call is passed in
    as an Except value (error = the provider call threw).
-/

namespace ZoomEventPlatform

/-- Subscription tiers of the platform: TRIAL, STANDARD, PRO. -/
inductive Tier
  | TRIAL
  | STANDARD
  | PRO
deriving DecidableEq, Repr

/-- Limit triple attached to a tier; -1 denotes unlimited
(events router, SUBSCRIPTION_LIMITS table). -/
structure TierLimits where
  maxEvents : Int
  maxAttendees : Int
  maxDuration : Int
deriving DecidableEq, Repr

/-- The SUBSCRIPTION_LIMITS table of the events router:
TRIAL (3, 12, 60), STANDARD (10, 250, 240), PRO (-1, 500, -1). -/
def SUBSCRIPTION_LIMITS : Tier → TierLimits
  | .TRIAL => { maxEvents := 3, maxAttendees := 12, maxDuration := 60 }
  | .STANDARD => { maxEvents := 10, maxAttendees := 250, maxDuration := 240 }
  | .PRO => { maxEvents := -1, maxAttendees := 500, maxDuration := -1 }

/-- Outcome of the tier-limit checks at event creation. -/
inductive LimitDecision
  | allow
  | eventLimitExceeded (limit currentCount : Int)
  | attendeeLimitExceeded (limit requested : Int)
  | durationLimitExceeded (limit requested : Int)
deriving DecidableEq, Repr

/-- The tier-limit policy of the create-event route, as a pure function:
event count check, then attendee check, then duration check, first failure
wins (events router, limit checks of the POST route). -/
def evaluateTierLimits (limits : TierLimits)
    (eventCount attendeeLimit duration : Int) : LimitDecision :=
  if limits.maxEvents ≠ -1 ∧ eventCount ≥ limits.maxEvents then
    .eventLimitExceeded limits.maxEvents eventCount
  else if attendeeLimit > limits.maxAttendees then
    .attendeeLimitExceeded limits.maxAttendees attendeeLimit
  else if limits.maxDuration ≠ -1 ∧ duration > limits.maxDuration then
    .durationLimitExceeded limits.maxDuration duration
  else
    .allow

/-- Duration in minutes of a scheduled event: the ceiling of the
millisecond difference divided by 60000, as computed by
Math.ceil((endTime - startTime) / (1000 * 60)).  For an integer n and a
positive divisor d, the ceiling of n / d equals the floor of
(n + d - 1) / d, and Int division with a positive divisor is the floor. -/
def durationMinutes (startMs endMs : Int) : Int :=
  (endMs - startMs + 59999) / 60000

/-- JavaScript a || b on an optional number: null, undefined and 0 are
falsy and yield the default. -/
def jsOr (v : Option Int) (d : Int) : Int :=
  match v with
  | none => d
  | some x => if x = 0 then d else x

/-- JavaScript truthiness of an optional string: null, undefined and the
empty string are falsy. -/
def isTruthy : Option String → Bool
  | none => false
  | some s => !(s == "")

/-- Normalized record returned by zoomService.createMeeting (the fields
the events router consumes). -/
structure ZoomMeetingInfo where
  id : String
  join_url : String
  start_url : String
  password : String
deriving DecidableEq, Repr

/-- A persisted event row (the fields of prisma.event.create that the
policy and synchronization logic touch). -/
structure EventRecord where
  title : String
  description : Option String
  startTime : Int
  endTime : Int
  timezone : String
  maxAttendees : Int
  currentAttendees : Int
  userId : Nat
  zoomMeetingId : Option String
  zoomMeetingUrl : Option String
  zoomPassword : Option String
  zoomHostKey : Option String
deriving DecidableEq, Repr

/-- Body of a validated POST /api/events request (title nonempty,
ISO times parsed to milliseconds, maxAttendees a positive integer when
present). -/
structure CreateRequest where
  title : String
  description : Option String
  startTime : Int
  endTime : Int
  timezone : String
  maxAttendees : Option Int
  createZoomMeeting : Bool
deriving DecidableEq, Repr

/-- External calls issued by the create-event route, in order. -/
inductive StoreOrRemoteCall
  | storeCountEvents
  | remoteCreateMeeting
  | storeCreateEvent
deriving DecidableEq, Repr

/-- Result of the create-event route. -/
inductive CreateOutcome
  | denied (d : LimitDecision)
  | invalidStartTime
  | invalidEndTime
  | created (event : EventRecord) (zoomMeeting : Option ZoomMeetingInfo)
deriving DecidableEq, Repr

/-- The remote meeting attached at creation: requested and succeeded
yields the provider record; a thrown provider error is caught and yields
null; not requested yields null. -/
def createdZoomMeeting (req : CreateRequest)
    (remote : Except Unit ZoomMeetingInfo) : Option ZoomMeetingInfo :=
  if req.createZoomMeeting then
    match remote with
    | .ok m => some m
    | .error _ => none
  else none

/-- The store and remote calls of the create-event path when the tier
checks and the validation passed. -/
def createCallTrace (limits : TierLimits) (req : CreateRequest) :
    List StoreOrRemoteCall :=
  (if limits.maxEvents ≠ -1 then [.storeCountEvents] else []) ++
    (if req.createZoomMeeting then [.remoteCreateMeeting] else []) ++
    [.storeCreateEvent]

/-- Validation and creation part of the POST /api/events handler, after
the tier checks passed: start-in-future and end-after-start validation,
optional remote meeting creation (a thrown provider error is caught and
leaves the linkage null), then the store create. -/
def createEventValidated (limits : TierLimits) (nowMs : Int)
    (userId : Nat) (req : CreateRequest)
    (remote : Except Unit ZoomMeetingInfo) (attendeeLimit : Int)
    (countTrace : List StoreOrRemoteCall) :
    CreateOutcome × List StoreOrRemoteCall :=
  if req.startTime ≤ nowMs then
    (.invalidStartTime, countTrace)
  else if req.endTime ≤ req.startTime then
    (.invalidEndTime, countTrace)
  else
    (.created
      { title := req.title
        description := req.description
        startTime := req.startTime
        endTime := req.endTime
        timezone := req.timezone
        maxAttendees := attendeeLimit
        currentAttendees := 0
        userId := userId
        zoomMeetingId := (createdZoomMeeting req remote).map (fun m => m.id)
        zoomMeetingUrl :=
          (createdZoomMeeting req remote).map (fun m => m.join_url)
        zoomPassword :=
          (createdZoomMeeting req remote).map (fun m => m.password)
        zoomHostKey :=
          (createdZoomMeeting req remote).map (fun m => m.start_url) }
      (createdZoomMeeting req remote),
      createCallTrace limits req)

/-- The POST /api/events handler: the tier-limit checks of
evaluateTierLimits applied with the jsOr-defaulted attendee limit and the
ceiling duration (the event-count check issues a store count read when
maxEvents is not -1, recorded in the trace), denying on the first failing
check, then the validation-and-creation part.  Returns the outcome and
the trace of store and remote calls, in order. -/
def createEventWithMeeting (limits : TierLimits) (eventCount nowMs : Int)
    (userId : Nat) (req : CreateRequest)
    (remote : Except Unit ZoomMeetingInfo) :
    CreateOutcome × List StoreOrRemoteCall :=
  if evaluateTierLimits limits eventCount
      (jsOr req.maxAttendees limits.maxAttendees)
      (durationMinutes req.startTime req.endTime) = .allow then
    createEventValidated limits nowMs userId req remote
      (jsOr req.maxAttendees limits.maxAttendees)
      (if limits.maxEvents ≠ -1 then [.storeCountEvents] else [])
  else
    (.denied
      (evaluateTierLimits limits eventCount
        (jsOr req.maxAttendees limits.maxAttendees)
        (durationMinutes req.startTime req.endTime)),
      if limits.maxEvents ≠ -1 then [.storeCountEvents] else [])

/-- Body of a validated PUT /api/events/:id request: every field optional,
title nonempty when present, ISO times parsed to milliseconds. -/
structure UpdateRequest where
  title : Option String
  description : Option String
  startTime : Option Int
  endTime : Option Int
deriving DecidableEq, Repr

/-- PATCH payload sent to the remote meeting provider by the PUT route. -/
structure ZoomUpdateData where
  topic : Option String
  agenda : Option String
  start_time : Option Int
  duration : Option Int
deriving DecidableEq, Repr

/-- Condition under which the PUT route attempts a remote meeting update:
the event has a stored zoomMeetingId and one of title, startTime, endTime,
description is truthy in the request body. -/
def remoteUpdateNeeded (ev : EventRecord) (u : UpdateRequest) : Bool :=
  ev.zoomMeetingId.isSome &&
    (isTruthy u.title || u.startTime.isSome || u.endTime.isSome ||
      isTruthy u.description)

/-- Translation of changed local fields to remote fields in the PUT
route: title to topic, description to agenda, startTime to start_time,
and a recomputed duration when both startTime and endTime are present. -/
def zoomUpdatePayload (u : UpdateRequest) : ZoomUpdateData :=
  { topic := if isTruthy u.title then u.title else none
    agenda := if isTruthy u.description then u.description else none
    start_time := u.startTime
    duration :=
      match u.endTime, u.startTime with
      | some e, some s => some (durationMinutes s e)
      | _, _ => none }

/-- The local store update of the PUT route: fields present in the
request body overwrite the stored record, absent fields are unchanged. -/
def applyLocalUpdate (ev : EventRecord) (u : UpdateRequest) :
    EventRecord :=
  { ev with
    title := u.title.getD ev.title
    description :=
      match u.description with
      | some d => some d
      | none => ev.description
    startTime := u.startTime.getD ev.startTime
    endTime := u.endTime.getD ev.endTime }

/-- The PUT /api/events/:id handler for an existing event owned by the
caller: attempt the remote meeting update when remoteUpdateNeeded holds
(a thrown provider error is caught and ignored), then apply the local
update unconditionally.  Returns the updated record, whether a remote
update was attempted, and the payload it carries. -/
def updateEventAndMeeting (ev : EventRecord) (u : UpdateRequest)
    (remoteOutcome : Except Unit Unit) :
    EventRecord × Bool × ZoomUpdateData :=
  match remoteOutcome with
  | .ok _ =>
    (applyLocalUpdate ev u, remoteUpdateNeeded ev u, zoomUpdatePayload u)
  | .error _ =>
    (applyLocalUpdate ev u, remoteUpdateNeeded ev u, zoomUpdatePayload u)

/-- An attendee row created by prisma.attendee.create: unique on
(email, eventId), carrying the join URL snapshotted from the event at
registration time. -/
structure AttendeeRecord where
  email : String
  firstName : String
  lastName : String
  joinUrl : Option String
deriving DecidableEq, Repr

/-- Store state visible to POST /api/events/:id/attendees for one event:
the event row and its attendee rows. -/
structure RegState where
  event : EventRecord
  attendees : List AttendeeRecord
deriving DecidableEq, Repr

/-- Outcome of POST /api/events/:id/attendees for an existing event. -/
inductive RegisterOutcome
  | eventFull (limit current : Int)
  | duplicateRegistration
  | registered (attendee : AttendeeRecord)
deriving DecidableEq, Repr

/-- The POST /api/events/:id/attendees handler for an existing event
owned by the caller, run to completion without interleaving: reject when
the count of attendee rows has reached maxAttendees, then reject when an
attendee row with the same email exists for the event, otherwise create
the attendee row carrying the event join URL and increment the
currentAttendees counter by one. -/
def registerAttendee (s : RegState)
    (email firstName lastName : String) :
    RegisterOutcome × RegState :=
  if (s.attendees.length : Int) ≥ s.event.maxAttendees then
    (.eventFull s.event.maxAttendees s.attendees.length, s)
  else if s.attendees.any (fun a => a.email = email) then
    (.duplicateRegistration, s)
  else
    (.registered
      { email := email, firstName := firstName, lastName := lastName,
        joinUrl := s.event.zoomMeetingUrl },
      { event :=
          { s.event with
            currentAttendees := s.event.currentAttendees + 1 }
        attendees := s.attendees ++
          [{ email := email, firstName := firstName,
             lastName := lastName,
             joinUrl := s.event.zoomMeetingUrl }] })

/-- Program counter of one in-flight registration request.  Each
non-final phase performs one store call of the handler: the event read
with its attendee count (the capacity check is a local decision on the
value just read), the duplicate-check read, the attendee-row create, and
the counter increment — four separate store operations with no
transaction or conditional increment around them. -/
inductive RegPhase
  | readEventCount
  | readDuplicate
  | createRow
  | incrementCounter
  | finished (registered : Bool)
deriving DecidableEq, Repr

/-- One in-flight registration request. -/
structure RegProc where
  email : String
  firstName : String
  lastName : String
  phase : RegPhase
deriving DecidableEq, Repr

/-- The shared persistent store for one event, as seen by concurrent
registration requests. -/
structure RegStore where
  maxAttendees : Int
  currentAttendees : Int
  zoomMeetingUrl : Option String
  attendees : List AttendeeRecord
deriving DecidableEq, Repr

/-- One atomic step of a registration request against the shared store:
exactly one store call of the handler per step. -/
def regStep (p : RegProc) (s : RegStore) : RegProc × RegStore :=
  match p.phase with
  | .readEventCount =>
    if (s.attendees.length : Int) ≥ s.maxAttendees then
      ({ p with phase := .finished false }, s)
    else
      ({ p with phase := .readDuplicate }, s)
  | .readDuplicate =>
    if s.attendees.any (fun a => a.email = p.email) then
      ({ p with phase := .finished false }, s)
    else
      ({ p with phase := .createRow }, s)
  | .createRow =>
    ({ p with phase := .incrementCounter },
      { s with
        attendees := s.attendees ++
          [{ email := p.email, firstName := p.firstName,
             lastName := p.lastName, joinUrl := s.zoomMeetingUrl }] })
  | .incrementCounter =>
    ({ p with phase := .finished true },
      { s with currentAttendees := s.currentAttendees + 1 })
  | .finished _ => (p, s)

/-- Interleaved execution of two registration requests under a schedule:
true steps the first request, false steps the second. -/
def runSchedule : List Bool → RegProc → RegProc → RegStore →
    RegProc × RegProc × RegStore
  | [], p1, p2, s => (p1, p2, s)
  | true :: rest, p1, p2, s =>
    runSchedule rest (regStep p1 s).1 p2 (regStep p1 s).2
  | false :: rest, p1, p2, s =>
    runSchedule rest p1 (regStep p2 s).1 (regStep p2 s).2

/-- External calls issued by the DELETE /api/events/:id route. -/
inductive DeleteCall
  | remoteDeleteMeeting
  | storeDeleteEvent
deriving DecidableEq, Repr

/-- The DELETE /api/events/:id handler for an existing event owned by the
caller: when the event has a stored zoomMeetingId, attempt the remote
meeting deletion first (a thrown provider error is caught and ignored,
identically in both branches of the outcome), then delete the local
record unconditionally.  Returns the calls issued, in order. -/
def deleteEventAndMeeting (ev : EventRecord)
    (remoteOutcome : Except Unit Unit) : List DeleteCall :=
  if ev.zoomMeetingId.isSome then
    match remoteOutcome with
    | .ok _ => [.remoteDeleteMeeting, .storeDeleteEvent]
    | .error _ => [.remoteDeleteMeeting, .storeDeleteEvent]
  else
    [.storeDeleteEvent]

end ZoomEventPlatform

namespace ZoomEventPlatform

theorem evaluateTierLimits_cases (L : TierLimits) (c a d : Int) :
    (evaluateTierLimits L c a d = .eventLimitExceeded L.maxEvents c ↔
      (L.maxEvents ≠ -1 ∧ c ≥ L.maxEvents)) ∧
    (evaluateTierLimits L c a d = .attendeeLimitExceeded L.maxAttendees a ↔
      (¬(L.maxEvents ≠ -1 ∧ c ≥ L.maxEvents) ∧ a > L.maxAttendees)) ∧
    (evaluateTierLimits L c a d = .durationLimitExceeded L.maxDuration d ↔
      (¬(L.maxEvents ≠ -1 ∧ c ≥ L.maxEvents) ∧ ¬(a > L.maxAttendees) ∧
        (L.maxDuration ≠ -1 ∧ d > L.maxDuration))) ∧
    (evaluateTierLimits L c a d = .allow ↔
      (¬(L.maxEvents ≠ -1 ∧ c ≥ L.maxEvents) ∧ ¬(a > L.maxAttendees) ∧
        ¬(L.maxDuration ≠ -1 ∧ d > L.maxDuration))) := by
  unfold evaluateTierLimits
  split_ifs with h1 h2 h3 <;> simp_all

/-- C1: the tier-limit evaluation checks the event count first, then the
attendee count, then the duration, first failure wins; it denies with
EventLimitExceeded carrying (limit, currentCount) iff maxEvents is not -1
and the existing event count has reached it, denies with
AttendeeLimitExceeded carrying (limit, requested) iff the requested
attendee count strictly exceeds the tier cap, denies with
DurationLimitExceeded carrying (limit, requested) iff maxDuration is not
-1 and the requested duration strictly exceeds it, and otherwise allows;
PRO never denies on event count; the limit triples are TRIAL (3, 12, 60),
STANDARD (10, 250, 240), PRO (-1, 500, -1). -/
theorem tier_policy_fail_fast_characterization (t : Tier) (c a d : Int) :
    (evaluateTierLimits (SUBSCRIPTION_LIMITS t) c a d =
        .eventLimitExceeded (SUBSCRIPTION_LIMITS t).maxEvents c ↔
      ((SUBSCRIPTION_LIMITS t).maxEvents ≠ -1 ∧
        c ≥ (SUBSCRIPTION_LIMITS t).maxEvents)) ∧
    (evaluateTierLimits (SUBSCRIPTION_LIMITS t) c a d =
        .attendeeLimitExceeded (SUBSCRIPTION_LIMITS t).maxAttendees a ↔
      (¬((SUBSCRIPTION_LIMITS t).maxEvents ≠ -1 ∧
          c ≥ (SUBSCRIPTION_LIMITS t).maxEvents) ∧
        a > (SUBSCRIPTION_LIMITS t).maxAttendees)) ∧
    (evaluateTierLimits (SUBSCRIPTION_LIMITS t) c a d =
        .durationLimitExceeded (SUBSCRIPTION_LIMITS t).maxDuration d ↔
      (¬((SUBSCRIPTION_LIMITS t).maxEvents ≠ -1 ∧
          c ≥ (SUBSCRIPTION_LIMITS t).maxEvents) ∧
        ¬(a > (SUBSCRIPTION_LIMITS t).maxAttendees) ∧
        ((SUBSCRIPTION_LIMITS t).maxDuration ≠ -1 ∧
          d > (SUBSCRIPTION_LIMITS t).maxDuration))) ∧
    (evaluateTierLimits (SUBSCRIPTION_LIMITS t) c a d = .allow ↔
      (¬((SUBSCRIPTION_LIMITS t).maxEvents ≠ -1 ∧
          c ≥ (SUBSCRIPTION_LIMITS t).maxEvents) ∧
        ¬(a > (SUBSCRIPTION_LIMITS t).maxAttendees) ∧
        ¬((SUBSCRIPTION_LIMITS t).maxDuration ≠ -1 ∧
          d > (SUBSCRIPTION_LIMITS t).maxDuration))) ∧
    (∀ l cc, evaluateTierLimits (SUBSCRIPTION_LIMITS .PRO) c a d ≠
        .eventLimitExceeded l cc) ∧
    SUBSCRIPTION_LIMITS .TRIAL =
      { maxEvents := 3, maxAttendees := 12, maxDuration := 60 } ∧
    SUBSCRIPTION_LIMITS .STANDARD =
      { maxEvents := 10, maxAttendees := 250, maxDuration := 240 } ∧
    SUBSCRIPTION_LIMITS .PRO =
      { maxEvents := -1, maxAttendees := 500, maxDuration := -1 } := by
  refine ⟨(evaluateTierLimits_cases _ c a d).1,
    (evaluateTierLimits_cases _ c a d).2.1,
    (evaluateTierLimits_cases _ c a d).2.2.1,
    (evaluateTierLimits_cases _ c a d).2.2.2, ?_, rfl, rfl, rfl⟩
  intro l cc
  unfold evaluateTierLimits SUBSCRIPTION_LIMITS
  split_ifs with h1 h2 h3 <;> simp_all

theorem createEventValidated_not_denied (limits : TierLimits)
    (nowMs : Int) (userId : Nat)
    (req : CreateRequest) (remote : Except Unit ZoomMeetingInfo)
    (attendeeLimit : Int) (countTrace : List StoreOrRemoteCall)
    (d : LimitDecision) :
    (createEventValidated limits nowMs userId req remote attendeeLimit
      countTrace).1 ≠ .denied d := by
  unfold createEventValidated
  split_ifs <;> simp

theorem createEventWithMeeting_denied_inv (limits : TierLimits)
    (eventCount nowMs : Int) (userId : Nat) (req : CreateRequest)
    (remote : Except Unit ZoomMeetingInfo) (d : LimitDecision)
    (h : (createEventWithMeeting limits eventCount nowMs userId req
      remote).1 = .denied d) :
    evaluateTierLimits limits eventCount
      (jsOr req.maxAttendees limits.maxAttendees)
      (durationMinutes req.startTime req.endTime) = d := by
  unfold createEventWithMeeting at h
  by_cases hdec : evaluateTierLimits limits eventCount
      (jsOr req.maxAttendees limits.maxAttendees)
      (durationMinutes req.startTime req.endTime) = .allow
  · rw [if_pos hdec] at h
    exact absurd h (createEventValidated_not_denied _ _ _ _ _ _ _ d)
  · rw [if_neg hdec] at h
    simpa using h

theorem evaluateTierLimits_attendee_inv (L : TierLimits) (c a d l v : Int)
    (h : evaluateTierLimits L c a d = .attendeeLimitExceeded l v) :
    l = L.maxAttendees ∧ v = a ∧ a > L.maxAttendees := by
  unfold evaluateTierLimits at h
  split_ifs at h <;> simp_all

/-- C2: when the remote meeting-provider call throws, the create-event
route still persists the local event, with all four remote-linkage fields
null, and the zoomMeeting component of the response is null; the remote
failure is not propagated as a failure of event creation. -/
theorem create_persists_local_on_remote_failure
    (limits : TierLimits) (eventCount nowMs : Int) (userId : Nat)
    (req : CreateRequest)
    (hzoom : req.createZoomMeeting = true)
    (hev : ¬(limits.maxEvents ≠ -1 ∧ eventCount ≥ limits.maxEvents))
    (hatt : ¬(jsOr req.maxAttendees limits.maxAttendees >
      limits.maxAttendees))
    (hdur : ¬(limits.maxDuration ≠ -1 ∧
      durationMinutes req.startTime req.endTime > limits.maxDuration))
    (hstart : nowMs < req.startTime)
    (hend : req.startTime < req.endTime) :
    ∃ ev : EventRecord,
      (createEventWithMeeting limits eventCount nowMs userId req
          (.error ())).1 = .created ev none ∧
      ev.zoomMeetingId = none ∧ ev.zoomMeetingUrl = none ∧
      ev.zoomPassword = none ∧ ev.zoomHostKey = none := by
  have hallow : evaluateTierLimits limits eventCount
      (jsOr req.maxAttendees limits.maxAttendees)
      (durationMinutes req.startTime req.endTime) = .allow :=
    (evaluateTierLimits_cases _ _ _ _).2.2.2.mpr ⟨hev, hatt, hdur⟩
  unfold createEventWithMeeting
  rw [if_pos hallow]
  unfold createEventValidated
  rw [if_neg (not_le.mpr hstart), if_neg (not_le.mpr hend)]
  simp [createdZoomMeeting, hzoom]

/-- Witness for C2 at a concrete TRIAL-tier request. -/
theorem create_persists_local_on_remote_failure_witness :
    ∃ ev : EventRecord,
      (createEventWithMeeting (SUBSCRIPTION_LIMITS .TRIAL) 0 0 1
          { title := "t", description := none, startTime := 60000,
            endTime := 120000, timezone := "UTC", maxAttendees := none,
            createZoomMeeting := true }
          (.error ())).1 = .created ev none ∧
      ev.zoomMeetingId = none ∧ ev.zoomMeetingUrl = none ∧
      ev.zoomPassword = none ∧ ev.zoomHostKey = none :=
  create_persists_local_on_remote_failure (SUBSCRIPTION_LIMITS .TRIAL)
    0 0 1
    { title := "t", description := none, startTime := 60000,
      endTime := 120000, timezone := "UTC", maxAttendees := none,
      createZoomMeeting := true }
    rfl (by decide) (by decide) (by decide) (by decide) (by decide)

/-- C5: the duration compared against the tier cap is the ceiling of the
millisecond difference over one minute, so whole minutes are exact and any
fractional remainder rounds up; a duration exactly the tier cap is
allowed and one minute above is denied with DurationLimitExceeded. -/
theorem duration_ceiling_and_boundary (L : TierLimits) (s m r c a : Int)
    (hr1 : 0 < r) (hr2 : r < 60000)
    (hev : ¬(L.maxEvents ≠ -1 ∧ c ≥ L.maxEvents))
    (hatt : ¬(a > L.maxAttendees))
    (hD : L.maxDuration ≠ -1) :
    durationMinutes s (s + m * 60000) = m ∧
    durationMinutes s (s + m * 60000 + r) = m + 1 ∧
    evaluateTierLimits L c a L.maxDuration = .allow ∧
    evaluateTierLimits L c a (L.maxDuration + 1) =
      .durationLimitExceeded L.maxDuration (L.maxDuration + 1) := by
  refine ⟨?_, ?_, ?_, ?_⟩
  · unfold durationMinutes; omega
  · unfold durationMinutes; omega
  · exact (evaluateTierLimits_cases L c a L.maxDuration).2.2.2.mpr
      ⟨hev, hatt, by omega⟩
  · exact (evaluateTierLimits_cases L c a (L.maxDuration + 1)).2.2.1.mpr
      ⟨hev, hatt, hD, by omega⟩

/-- Witness for C5: 240.2 minutes rounds up to 241 and is denied against
the STANDARD 240-minute cap, while exactly 240 minutes is allowed. -/
theorem duration_ceiling_and_boundary_witness :
    durationMinutes 0 (0 + 240 * 60000) = 240 ∧
    durationMinutes 0 (0 + 240 * 60000 + 12000) = 240 + 1 ∧
    evaluateTierLimits (SUBSCRIPTION_LIMITS .STANDARD) 0 1
      (SUBSCRIPTION_LIMITS .STANDARD).maxDuration = .allow ∧
    evaluateTierLimits (SUBSCRIPTION_LIMITS .STANDARD) 0 1
        ((SUBSCRIPTION_LIMITS .STANDARD).maxDuration + 1) =
      .durationLimitExceeded (SUBSCRIPTION_LIMITS .STANDARD).maxDuration
        ((SUBSCRIPTION_LIMITS .STANDARD).maxDuration + 1) :=
  duration_ceiling_and_boundary (SUBSCRIPTION_LIMITS .STANDARD)
    0 240 12000 0 1 (by decide) (by decide) (by decide) (by decide)
    (by decide)

/-- A concrete create-event request used to evaluate the TRIAL
at-the-event-limit path. -/
def trialLimitRequest : CreateRequest :=
  { title := "t", description := none, startTime := 60000,
    endTime := 120000, timezone := "UTC", maxAttendees := none,
    createZoomMeeting := true }

/-- C8 counterexample: at TRIAL tier with three existing events the route
does deny with EventLimitExceeded (limit 3, currentCount 3), but a
persistent-store call — the event-count read — is issued before the
denial, so the claim that the rejection precedes any persistent-store
call fails. -/
theorem trial_limit_denial_store_read_counterexample :
    (createEventWithMeeting (SUBSCRIPTION_LIMITS .TRIAL) 3 0 1
        trialLimitRequest (.error ())).1 =
      .denied (.eventLimitExceeded 3 3) ∧
    StoreOrRemoteCall.storeCountEvents ∈
      (createEventWithMeeting (SUBSCRIPTION_LIMITS .TRIAL) 3 0 1
        trialLimitRequest (.error ())).2 := by
  decide

/-- C8 amended: at TRIAL tier with three existing events the route denies
with EventLimitExceeded (limit 3, currentCount 3) for every request, and
no remote-provider call and no store write precedes the denial — the only
store access issued is the event-count read, which has no side effect. -/
theorem trial_limit_denial_before_side_effects
    (nowMs : Int) (userId : Nat) (req : CreateRequest)
    (remote : Except Unit ZoomMeetingInfo) :
    (createEventWithMeeting (SUBSCRIPTION_LIMITS .TRIAL) 3 nowMs userId
        req remote).1 = .denied (.eventLimitExceeded 3 3) ∧
    (createEventWithMeeting (SUBSCRIPTION_LIMITS .TRIAL) 3 nowMs userId
        req remote).2 = [.storeCountEvents] ∧
    StoreOrRemoteCall.remoteCreateMeeting ∉
      (createEventWithMeeting (SUBSCRIPTION_LIMITS .TRIAL) 3 nowMs userId
        req remote).2 ∧
    StoreOrRemoteCall.storeCreateEvent ∉
      (createEventWithMeeting (SUBSCRIPTION_LIMITS .TRIAL) 3 nowMs userId
        req remote).2 := by
  have hdec : evaluateTierLimits (SUBSCRIPTION_LIMITS .TRIAL) 3
      (jsOr req.maxAttendees (SUBSCRIPTION_LIMITS .TRIAL).maxAttendees)
      (durationMinutes req.startTime req.endTime) =
      .eventLimitExceeded 3 3 := by
    unfold evaluateTierLimits SUBSCRIPTION_LIMITS
    norm_num
  unfold createEventWithMeeting
  rw [hdec]
  simp [SUBSCRIPTION_LIMITS]

/-- Witness for the amended C8 at a concrete request. -/
theorem trial_limit_denial_before_side_effects_witness :
    (createEventWithMeeting (SUBSCRIPTION_LIMITS .TRIAL) 3 0 1
        trialLimitRequest (.ok ⟨"1", "j", "s", "p"⟩)).1 =
      .denied (.eventLimitExceeded 3 3) ∧
    (createEventWithMeeting (SUBSCRIPTION_LIMITS .TRIAL) 3 0 1
        trialLimitRequest (.ok ⟨"1", "j", "s", "p"⟩)).2 =
      [.storeCountEvents] ∧
    StoreOrRemoteCall.remoteCreateMeeting ∉
      (createEventWithMeeting (SUBSCRIPTION_LIMITS .TRIAL) 3 0 1
        trialLimitRequest (.ok ⟨"1", "j", "s", "p"⟩)).2 ∧
    StoreOrRemoteCall.storeCreateEvent ∉
      (createEventWithMeeting (SUBSCRIPTION_LIMITS .TRIAL) 3 0 1
        trialLimitRequest (.ok ⟨"1", "j", "s", "p"⟩)).2 :=
  trial_limit_denial_before_side_effects 0 1 trialLimitRequest
    (.ok ⟨"1", "j", "s", "p"⟩)

/-- C10: when the request omits maxAttendees the persisted event defaults
it to the tier cap and the AttendeeLimitExceeded denial cannot fire; in
general that denial fires only when the request explicitly supplies a
value strictly above the tier cap. -/
theorem omitted_max_attendees_defaults_to_tier_cap
    (limits : TierLimits) (eventCount nowMs : Int) (userId : Nat)
    (req : CreateRequest) (remote : Except Unit ZoomMeetingInfo)
    (hnone : req.maxAttendees = none) :
    jsOr req.maxAttendees limits.maxAttendees = limits.maxAttendees ∧
    (∀ ev z,
      (createEventWithMeeting limits eventCount nowMs userId req
          remote).1 = .created ev z →
      ev.maxAttendees = limits.maxAttendees) ∧
    (∀ l v,
      (createEventWithMeeting limits eventCount nowMs userId req
          remote).1 ≠ .denied (.attendeeLimitExceeded l v)) ∧
    (∀ req2 : CreateRequest, ∀ l v,
      (createEventWithMeeting limits eventCount nowMs userId req2
          remote).1 = .denied (.attendeeLimitExceeded l v) →
      ∃ w, req2.maxAttendees = some w ∧ w > limits.maxAttendees) := by
  refine ⟨by simp [jsOr, hnone], ?_, ?_, ?_⟩
  · intro ev z h
    unfold createEventWithMeeting at h
    by_cases hdec : evaluateTierLimits limits eventCount
        (jsOr req.maxAttendees limits.maxAttendees)
        (durationMinutes req.startTime req.endTime) = .allow
    · rw [if_pos hdec] at h
      unfold createEventValidated at h
      split_ifs at h <;> simp_all [jsOr, hnone]
      obtain ⟨h1, -⟩ := h
      subst h1
      rfl
    · rw [if_neg hdec] at h
      simp at h
  · intro l v h
    have hinv := createEventWithMeeting_denied_inv _ _ _ _ _ _ _ h
    obtain ⟨-, -, hgt⟩ := evaluateTierLimits_attendee_inv _ _ _ _ _ _ hinv
    rw [hnone] at hgt
    simp only [jsOr] at hgt
    exact absurd hgt (lt_irrefl _)
  · intro req2 l v h
    have hinv := createEventWithMeeting_denied_inv _ _ _ _ _ _ _ h
    obtain ⟨-, -, hgt⟩ := evaluateTierLimits_attendee_inv _ _ _ _ _ _ hinv
    rcases hq : req2.maxAttendees with _ | w
    · rw [hq] at hgt
      simp only [jsOr] at hgt
      exact absurd hgt (lt_irrefl _)
    · rw [hq] at hgt
      by_cases hw : w = 0
      · simp only [jsOr, hw, if_pos] at hgt
        exact absurd hgt (lt_irrefl _)
      · exact ⟨w, rfl, by simpa [jsOr, hw] using hgt⟩

/-- Witness for C10 at a concrete TRIAL-tier request omitting
maxAttendees. -/
theorem omitted_max_attendees_defaults_to_tier_cap_witness :
    jsOr (trialLimitRequest.maxAttendees)
        (SUBSCRIPTION_LIMITS .TRIAL).maxAttendees =
      (SUBSCRIPTION_LIMITS .TRIAL).maxAttendees ∧
    (∀ ev z,
      (createEventWithMeeting (SUBSCRIPTION_LIMITS .TRIAL) 0 0 1
          trialLimitRequest (.error ())).1 = .created ev z →
      ev.maxAttendees = (SUBSCRIPTION_LIMITS .TRIAL).maxAttendees) ∧
    (∀ l v,
      (createEventWithMeeting (SUBSCRIPTION_LIMITS .TRIAL) 0 0 1
          trialLimitRequest (.error ())).1 ≠
        .denied (.attendeeLimitExceeded l v)) ∧
    (∀ req2 : CreateRequest, ∀ l v,
      (createEventWithMeeting (SUBSCRIPTION_LIMITS .TRIAL) 0 0 1 req2
          (.error ())).1 = .denied (.attendeeLimitExceeded l v) →
      ∃ w, req2.maxAttendees = some w ∧
        w > (SUBSCRIPTION_LIMITS .TRIAL).maxAttendees) :=
  omitted_max_attendees_defaults_to_tier_cap (SUBSCRIPTION_LIMITS .TRIAL)
    0 0 1 trialLimitRequest (.error ()) rfl

theorem isTruthy_eq_isSome (v : Option String) (h : v ≠ some "") :
    isTruthy v = v.isSome := by
  cases v with
  | none => rfl
  | some s =>
    have hs : s ≠ "" := fun hh => h (by rw [hh])
    simp [isTruthy, hs]

theorem remoteUpdateNeeded_iff (ev : EventRecord) (u : UpdateRequest)
    (htitle : u.title ≠ some "") :
    (remoteUpdateNeeded ev u = true ↔
      (ev.zoomMeetingId.isSome = true ∧
        (u.title.isSome = true ∨ isTruthy u.description = true ∨
          u.startTime.isSome = true ∨ u.endTime.isSome = true))) := by
  unfold remoteUpdateNeeded
  rw [isTruthy_eq_isSome _ htitle]
  simp only [Bool.and_eq_true, Bool.or_eq_true]
  tauto

theorem zoomUpdatePayload_fields (u : UpdateRequest)
    (htitle : u.title ≠ some "") :
    (zoomUpdatePayload u).topic = u.title ∧
    (zoomUpdatePayload u).agenda =
      (if isTruthy u.description then u.description else none) ∧
    (zoomUpdatePayload u).start_time = u.startTime ∧
    (∀ s e, u.startTime = some s → u.endTime = some e →
      (zoomUpdatePayload u).duration = some (durationMinutes s e)) ∧
    (u.startTime = none ∨ u.endTime = none →
      (zoomUpdatePayload u).duration = none) := by
  have h1 : isTruthy u.title = u.title.isSome := isTruthy_eq_isSome _ htitle
  unfold zoomUpdatePayload
  rw [h1]
  refine ⟨?_, rfl, rfl, ?_, ?_⟩
  · cases u.title <;> simp
  · intro s e hs he
    rw [hs, he]
  · intro h
    rcases h with h | h
    · rw [h]; cases u.endTime <;> simp
    · rw [h]

/-- An event with full remote linkage, used as the C6 failing input. -/
def linkedEvent : EventRecord :=
  { title := "t", description := some "d", startTime := 60000,
    endTime := 120000, timezone := "UTC", maxAttendees := 10,
    currentAttendees := 0, userId := 1, zoomMeetingId := some "z",
    zoomMeetingUrl := some "u", zoomPassword := some "p",
    zoomHostKey := some "h" }

/-- An update request whose only provided field sets description to the
empty string; the PUT route has no validator on description, so this
request is reachable. -/
def emptyDescriptionUpdate : UpdateRequest :=
  { title := none, description := some "", startTime := none,
    endTime := none }

/-- C6 counterexample: for a remotely linked event, an update that sets
description to the empty string is a changed field — the local record is
updated to the empty description and differs from the stored one — yet
the route attempts no remote update at all (the truthiness check treats
the empty string as absent), and the payload carries no agenda;
contradicting the claim that a remote update is attempted whenever
description is among the changed fields and that the changed fields are
translated exactly. -/
theorem empty_description_skips_remote_update :
    emptyDescriptionUpdate.description.isSome = true ∧
    linkedEvent.zoomMeetingId.isSome = true ∧
    (updateEventAndMeeting linkedEvent emptyDescriptionUpdate
      (.ok ())).1.description = some "" ∧
    (updateEventAndMeeting linkedEvent emptyDescriptionUpdate
      (.ok ())).1 ≠ linkedEvent ∧
    (updateEventAndMeeting linkedEvent emptyDescriptionUpdate
      (.ok ())).2.1 = false ∧
    (updateEventAndMeeting linkedEvent emptyDescriptionUpdate
      (.ok ())).2.2.agenda = none := by
  decide

/-- C6 amended: on event update a remote meeting update is attempted iff
the event has a stored zoomMeetingId and at least one of title,
description, startTime, endTime changed with a truthy value — a
description explicitly set to the empty string does not trigger the
remote update and is omitted from its payload, though it is still
applied to the local record; the payload translates exactly the truthy
changed fields — title to topic, truthy description to agenda, startTime
to start_time, a recomputed ceiling duration when the scheduled times
changed (both startTime and endTime present) and none otherwise — and
the local update is applied and returned identically whether the remote
update succeeds or throws. -/
theorem update_translates_changed_fields (ev : EventRecord)
    (u : UpdateRequest) (r : Except Unit Unit)
    (htitle : u.title ≠ some "") :
    ((updateEventAndMeeting ev u r).2.1 = true ↔
      (ev.zoomMeetingId.isSome = true ∧
        (u.title.isSome = true ∨ isTruthy u.description = true ∨
          u.startTime.isSome = true ∨ u.endTime.isSome = true))) ∧
    (updateEventAndMeeting ev u r).2.2.topic = u.title ∧
    (updateEventAndMeeting ev u r).2.2.agenda =
      (if isTruthy u.description then u.description else none) ∧
    (updateEventAndMeeting ev u r).2.2.start_time = u.startTime ∧
    (∀ s e, u.startTime = some s → u.endTime = some e →
      (updateEventAndMeeting ev u r).2.2.duration =
        some (durationMinutes s e)) ∧
    (u.startTime = none ∨ u.endTime = none →
      (updateEventAndMeeting ev u r).2.2.duration = none) ∧
    (updateEventAndMeeting ev u r).1 = applyLocalUpdate ev u ∧
    (updateEventAndMeeting ev u r).1.title = u.title.getD ev.title ∧
    (updateEventAndMeeting ev u r).1.description =
      (match u.description with
        | some d => some d
        | none => ev.description) ∧
    (updateEventAndMeeting ev u r).1.startTime =
      u.startTime.getD ev.startTime ∧
    (updateEventAndMeeting ev u r).1.endTime =
      u.endTime.getD ev.endTime ∧
    updateEventAndMeeting ev u (.error ()) =
      updateEventAndMeeting ev u (.ok ()) := by
  obtain ⟨p1, p2, p3, p4, p5⟩ := zoomUpdatePayload_fields u htitle
  cases r <;>
    exact ⟨remoteUpdateNeeded_iff ev u htitle, p1, p2, p3, p4, p5,
      rfl, rfl, rfl, rfl, rfl, rfl⟩

/-- Witness for the amended C6: remote linkage present and only the
title changed. -/
theorem update_translates_changed_fields_witness :
    ((updateEventAndMeeting linkedEvent
        { title := some "t2", description := none, startTime := none,
          endTime := none }
        (.error ())).2.1 = true ↔
      (linkedEvent.zoomMeetingId.isSome = true ∧
        ((some "t2" : Option String).isSome = true ∨
          isTruthy (none : Option String) = true ∨
          (none : Option Int).isSome = true ∨
          (none : Option Int).isSome = true))) ∧
    (updateEventAndMeeting linkedEvent
        { title := some "t2", description := none, startTime := none,
          endTime := none }
        (.error ())).2.2.topic = some "t2" :=
  ⟨(update_translates_changed_fields linkedEvent
      { title := some "t2", description := none, startTime := none,
        endTime := none }
      (.error ()) (by decide)).1,
    (update_translates_changed_fields linkedEvent
      { title := some "t2", description := none, startTime := none,
        endTime := none }
      (.error ()) (by decide)).2.1⟩

/-- C7: on deletion of an event owned by the caller the local record is
removed for every outcome of the remote call; when remote linkage exists
the remote deletion is attempted first, and when it does not only the
local deletion happens. -/
theorem delete_local_unconditional (ev : EventRecord)
    (r : Except Unit Unit) :
    DeleteCall.storeDeleteEvent ∈ deleteEventAndMeeting ev r ∧
    deleteEventAndMeeting ev r =
      (if ev.zoomMeetingId.isSome then
        [DeleteCall.remoteDeleteMeeting, DeleteCall.storeDeleteEvent]
      else
        [DeleteCall.storeDeleteEvent]) ∧
    deleteEventAndMeeting ev (.error ()) =
      deleteEventAndMeeting ev (.ok ()) := by
  unfold deleteEventAndMeeting
  cases r <;> split_ifs <;> simp

/-- A persisted event satisfying the end-after-start invariant, used as
the failing input of the update path. -/
def invariantEvent : EventRecord :=
  { title := "t", description := none, startTime := 1000000,
    endTime := 2000000, timezone := "UTC", maxAttendees := 10,
    currentAttendees := 0, userId := 1, zoomMeetingId := none,
    zoomMeetingUrl := none, zoomPassword := none, zoomHostKey := none }

/-- An update request that only moves endTime before the stored
startTime. -/
def shrinkEndUpdate : UpdateRequest :=
  { title := none, description := none, startTime := none,
    endTime := some 500000 }

/-- C9 failing input: creation does reject a request whose endTime is not
after its startTime, but the update route applies a changed endTime with
no end-after-start validation, so a persisted event satisfying the
invariant is updated into one with scheduledEnd strictly before
scheduledStart. -/
theorem update_breaks_end_after_start_invariant :
    (createEventWithMeeting (SUBSCRIPTION_LIMITS .PRO) 0 0 1
        { title := "t", description := none, startTime := 60000,
          endTime := 60000, timezone := "UTC", maxAttendees := none,
          createZoomMeeting := false }
        (.error ())).1 = .invalidEndTime ∧
    invariantEvent.startTime < invariantEvent.endTime ∧
    (updateEventAndMeeting invariantEvent shrinkEndUpdate (.ok ())).1.endTime <
      (updateEventAndMeeting invariantEvent shrinkEndUpdate (.ok ())).1.startTime := by
  decide

/-- C3: for an existing event whose attendee-row count agrees with its
currentAttendees counter, registration denies EventFull iff the counter
has reached maxAttendees, denies DuplicateRegistration iff the event is
not full and an attendee row with the same email already exists for the
event, and otherwise creates the attendee row carrying the join URL
snapshotted from the event and increments the counter by one; on either
denial the store is unchanged. -/
theorem register_attendee_characterization (s : RegState)
    (email firstName lastName : String)
    (hsync : (s.attendees.length : Int) = s.event.currentAttendees) :
    ((registerAttendee s email firstName lastName).1 =
        .eventFull s.event.maxAttendees s.event.currentAttendees ↔
      s.event.currentAttendees ≥ s.event.maxAttendees) ∧
    ((registerAttendee s email firstName lastName).1 =
        .duplicateRegistration ↔
      (s.event.currentAttendees < s.event.maxAttendees ∧
        ∃ a ∈ s.attendees, a.email = email)) ∧
    (s.event.currentAttendees < s.event.maxAttendees →
      (∀ a ∈ s.attendees, a.email ≠ email) →
      (registerAttendee s email firstName lastName).1 =
        .registered
          { email := email, firstName := firstName,
            lastName := lastName,
            joinUrl := s.event.zoomMeetingUrl } ∧
      (registerAttendee s email firstName lastName).2.attendees =
        s.attendees ++
          [{ email := email, firstName := firstName,
             lastName := lastName,
             joinUrl := s.event.zoomMeetingUrl }] ∧
      (registerAttendee s email firstName lastName).2.event.currentAttendees =
        s.event.currentAttendees + 1) ∧
    (((registerAttendee s email firstName lastName).1 =
        .eventFull s.event.maxAttendees s.event.currentAttendees ∨
      (registerAttendee s email firstName lastName).1 =
        .duplicateRegistration) →
      (registerAttendee s email firstName lastName).2 = s) := by
  unfold registerAttendee
  rw [hsync]
  split_ifs with h1 h2
  · refine ⟨by simp [h1], ?_, ?_, fun _ => rfl⟩
    · constructor
      · intro hfalse; simp at hfalse
      · rintro ⟨hlt, -⟩; omega
    · exact fun hlt _ => absurd hlt (by omega)
  · simp only [List.any_eq_true, decide_eq_true_eq] at h2
    refine ⟨?_, ?_, ?_, fun _ => rfl⟩
    · constructor
      · intro hfalse; simp at hfalse
      · intro hge; omega
    · constructor
      · intro _; exact ⟨by omega, h2⟩
      · intro _; rfl
    · rintro - hnone
      obtain ⟨a, ha, hae⟩ := h2
      exact absurd hae (hnone a ha)
  · simp only [List.any_eq_true, decide_eq_true_eq] at h2
    push_neg at h2
    refine ⟨?_, ?_, ?_, ?_⟩
    · constructor
      · intro hfalse; simp at hfalse
      · intro hge; omega
    · constructor
      · intro hfalse; simp at hfalse
      · rintro ⟨-, a, ha, hae⟩
        exact absurd hae (h2 a ha)
    · rintro - -
      exact ⟨rfl, rfl, rfl⟩
    · rintro (hfalse | hfalse) <;> simp at hfalse

/-- A near-capacity event: maxAttendees 2 with one registered attendee
and a counter of 1. -/
def nearFullEvent : EventRecord :=
  { title := "t", description := none, startTime := 60000,
    endTime := 120000, timezone := "UTC", maxAttendees := 2,
    currentAttendees := 1, userId := 1, zoomMeetingId := none,
    zoomMeetingUrl := none, zoomPassword := none, zoomHostKey := none }

/-- Store state for the near-capacity event. -/
def regStateNearFull : RegState :=
  { event := nearFullEvent
    attendees :=
      [{ email := "a", firstName := "A", lastName := "A",
         joinUrl := none }] }

/-- Witness for C3 at the near-capacity state. -/
theorem register_attendee_characterization_witness :
    (registerAttendee regStateNearFull "b" "B" "B").1 =
      .registered
        { email := "b", firstName := "B", lastName := "B",
          joinUrl := none } ∧
    (registerAttendee regStateNearFull "b" "B" "B").2.event.currentAttendees = 2 := by
  have h := register_attendee_characterization regStateNearFull
    "b" "B" "B" (by decide)
  obtain ⟨-, -, h3, -⟩ := h
  obtain ⟨hr, -, hc⟩ := h3 (by decide) (by decide)
  exact ⟨hr, by rw [hc]; decide⟩

/-- The two concurrent registration requests of the C4 scenario. -/
def regProcB : RegProc :=
  { email := "b", firstName := "B", lastName := "B",
    phase := .readEventCount }

/-- The second concurrent registration request of the C4 scenario. -/
def regProcC : RegProc :=
  { email := "c", firstName := "C", lastName := "C",
    phase := .readEventCount }

/-- Shared store of the C4 scenario: capacity 2, one attendee row,
counter 1. -/
def regStoreNearFull : RegStore :=
  { maxAttendees := 2, currentAttendees := 1, zoomMeetingUrl := none,
    attendees :=
      [{ email := "a", firstName := "A", lastName := "A",
         joinUrl := none }] }

/-- C4 failing interleaving: because the capacity check and the counter
increment are separate store calls with no transaction, the interleaving
in which both requests pass their capacity check before either inserts
lets both succeed, driving currentAttendees to 3 above the capacity of
2 — whereas the serialized execution of the same two requests registers
exactly one and denies the other with EventFull. -/
theorem concurrent_registration_overshoots_capacity :
    (runSchedule [true, false, true, false, true, true, false, false]
        regProcB regProcC regStoreNearFull).1.phase = .finished true ∧
    (runSchedule [true, false, true, false, true, true, false, false]
        regProcB regProcC regStoreNearFull).2.1.phase = .finished true ∧
    (runSchedule [true, false, true, false, true, true, false, false]
        regProcB regProcC regStoreNearFull).2.2.currentAttendees = 3 ∧
    regStoreNearFull.maxAttendees = 2 ∧
    (runSchedule [true, false, true, false, true, true, false, false]
        regProcB regProcC regStoreNearFull).2.2.currentAttendees >
      regStoreNearFull.maxAttendees ∧
    (registerAttendee regStateNearFull "b" "B" "B").1 =
      .registered
        { email := "b", firstName := "B", lastName := "B",
          joinUrl := none } ∧
    (registerAttendee
        (registerAttendee regStateNearFull "b" "B" "B").2
        "c" "C" "C").1 = .eventFull 2 2 := by
  decide

end ZoomEventPlatform
